import Mathlib

/-!
Verification of the election-predictions polling pipeline.

This file gives a shallow embedding of the data-cleaning engine
(src/data_engineering.py, DataEngineering.clean_data), the per-pollster
time-series regulariser and the cross-pollster aggregator
(src/data_science.py, DataScience.regularise_time_series and
DataScience.compute_polling_averages), and the partition file naming
(DataScience.get_split_file_path), together with theorems settling the
spec claims about them.

Modelling conventions:
* pandas cells are modelled by the inductive type Value (string, number,
  boolean, datetime, missing).  Numbers are exact rationals Q (the float
  arithmetic of the pipeline performs only field operations on small
  decimals, which float64 and exact rationals agree on at the granularity
  of the spec claims).  Q is implemented with fuel-based normalisation so
  that every pipeline run is evaluable inside the proof kernel.
* string operations are implemented structurally over the character
  lists underlying String, with the semantics of the Python and pandas
  functions the source calls.
* a pandas column is object dtype for the str accessor exactly when it
  holds at least one string; applying the str accessor to a column
  without strings (for instance a float64 column) raises AttributeError,
  modelled as Except.error.
* operations that Python can raise from return Except String; missing
  propagation (NaN in, NaN out) is modelled on the Value level.
-/

deriving instance DecidableEq for Except

namespace Poll

/-- Euclidean algorithm with explicit fuel.  Nat.gcd is defined by
well-founded recursion, which the kernel cannot reduce, so the model
carries its own gcd; fuel larger than the second argument is always
sufficient because that argument strictly decreases. -/
def gcdF : Nat → Nat → Nat → Nat
  | 0, a, _ => a
  | _ + 1, a, 0 => a
  | fuel + 1, a, b => gcdF fuel b (a % b)

/-- Greatest common divisor via gcdF with sufficient fuel. -/
def natGcd (a b : Nat) : Nat := gcdF (b + 1) a b

/-- An exact rational number: integer numerator and natural denominator.
All constructors and operations below normalise, so every value the
pipeline produces has a positive denominator and lowest terms, and
structural equality coincides with value equality on pipeline values. -/
structure Q where
  num : Int
  den : Nat
deriving DecidableEq, Repr

/-- Normalised rational n / d; the d = 0 case is unreachable for the
pipeline (all divisors there are positive) and maps to 0. -/
def Q.normalize (n : Int) (d : Nat) : Q :=
  if d = 0 then ⟨0, 1⟩
  else
    let g := natGcd n.natAbs d
    ⟨n / g, d / g⟩

/-- Embed a natural number. -/
def Q.ofNat (n : Nat) : Q := ⟨n, 1⟩

/-- The rational zero. -/
def Q.zero : Q := ⟨0, 1⟩

/-- Negation (keeps lowest terms). -/
def Q.neg (a : Q) : Q := ⟨-a.num, a.den⟩

/-- Addition. -/
def Q.add (a b : Q) : Q :=
  Q.normalize (a.num * b.den + b.num * a.den) (a.den * b.den)

/-- Subtraction. -/
def Q.sub (a b : Q) : Q :=
  Q.normalize (a.num * b.den - b.num * a.den) (a.den * b.den)

/-- Multiplication. -/
def Q.mul (a b : Q) : Q :=
  Q.normalize (a.num * b.num) (a.den * b.den)

/-- Division a / b (total; division by a zero value is unreachable under
the guards of the pipeline and maps to 0). -/
def Q.div (a b : Q) : Q :=
  if 0 ≤ b.num then Q.normalize (a.num * b.den) (a.den * b.num.natAbs)
  else Q.normalize (-(a.num * b.den)) (a.den * b.num.natAbs)

/-- Comparison, valid for positive denominators. -/
def Q.le (a b : Q) : Bool :=
  a.num * b.den ≤ b.num * a.den

/-- A pandas cell: a string, a (rational) number, a boolean, a datetime
(encoded as a natural number, monotone in calendar order), or missing
(NaN / NaT). -/
inductive Value where
  | str (s : String)
  | num (q : Q)
  | boolean (b : Bool)
  | date (d : Nat)
  | missing
deriving DecidableEq, Repr

/-- True when pat occurs as a contiguous run inside l. -/
def hasInfix (pat : List Char) : List Char → Bool
  | [] => pat.isEmpty
  | c :: rest => pat.isPrefixOf (c :: rest) || hasInfix pat rest

/-- True when pat occurs as a contiguous substring of s.  Models
Series.str.contains with a regex that matches a literal string (the
source escapes the asterisks, so only literal matching occurs). -/
def strHasSubstr (s pat : String) : Bool :=
  hasInfix pat.data s.data

/-- Python str.replace on character lists: replace non-overlapping
occurrences of pat left to right.  The fuel argument (any value at least
the list length) makes the recursion structural. -/
def replaceF (pat repl : List Char) : Nat → List Char → List Char
  | 0, l => l
  | _ + 1, [] => []
  | f + 1, c :: rest =>
    if !pat.isEmpty && pat.isPrefixOf (c :: rest) then
      repl ++ replaceF pat repl f ((c :: rest).drop pat.length)
    else
      c :: replaceF pat repl f rest

/-- Python str.replace on strings. -/
def pyReplace (s pat repl : String) : String :=
  ⟨replaceF pat.data repl.data (s.data.length + 1) s.data⟩

/-- Strip all trailing percent characters (str.rstrip("%")). -/
def rstripPercent (l : List Char) : List Char :=
  (l.reverse.dropWhile (· == '%')).reverse

/-- Strip surrounding whitespace (str.strip()). -/
def pyTrim (l : List Char) : List Char :=
  ((l.dropWhile (·.isWhitespace)).reverse.dropWhile (·.isWhitespace)).reverse

/-- Split at every occurrence of a separator character, keeping empty
pieces, as str.split("/") does with an explicit separator. -/
def splitOnChar (sep : Char) (l : List Char) : List (List Char) :=
  l.foldr (fun c acc =>
    match acc with
    | t :: ts => if c = sep then [] :: t :: ts else (c :: t) :: ts
    | [] => [[c]]) [[]]

/-- Value of an all-digit character run. -/
def natOfDigitsRaw (l : List Char) : Nat :=
  l.foldl (fun n c => n * 10 + (c.toNat - 48)) 0

/-- Value of a non-empty all-digit character list, otherwise none. -/
def natOfDigits? (l : List Char) : Option Nat :=
  if l.isEmpty then none
  else if l.all (·.isDigit) then some (natOfDigitsRaw l)
  else none

/-- Parse a decimal numeral the way float() / pd.to_numeric accept simple
numeric strings: optional surrounding whitespace, optional sign, digits
with an optional fractional part.  (Exponents and inf/nan spellings do
not occur in this data and are not modelled.) -/
def parseDecimal? (s : String) : Option Q :=
  let t := pyTrim s.data
  let signAndBody : Bool × List Char :=
    match t with
    | '-' :: u => (true, u)
    | '+' :: u => (false, u)
    | u => (false, u)
  let mag : Option Q :=
    match splitOnChar '.' signAndBody.2 with
    | [a] => (natOfDigits? a).map Q.ofNat
    | [a, b] =>
        let ds := a ++ b
        if ds.isEmpty then none
        else if ds.all (·.isDigit) then
          some (Q.normalize (natOfDigitsRaw ds) (10 ^ b.length))
        else none
    | _ => none
  mag.map (fun q => if signAndBody.1 then Q.neg q else q)

/-- Days in a month, Gregorian rules; used to validate parsed dates the
way pd.to_datetime with an explicit format does. -/
def daysInMonth (y m : Nat) : Nat :=
  if m = 2 then
    if y % 4 = 0 && (y % 100 ≠ 0 || y % 400 = 0) then 29 else 28
  else if m = 4 || m = 6 || m = 9 || m = 11 then 30
  else 31

/-- Encode a calendar date as a natural number, strictly monotone in
(year, month, day) lexicographic order. -/
def encodeDate (y m d : Nat) : Nat :=
  (y * 16 + m) * 32 + d

/-- Parse a date in the explicit month/day/two-digit-year format
("%m/%d/%y") used by the cleaning engine, with the strptime century rule
(00-68 maps to 20xx, 69-99 to 19xx).  Returns none on a malformed or
invalid date, which the caller turns into the to_datetime exception. -/
def parseDateMDY? (s : String) : Option Nat :=
  match splitOnChar '/' s.data with
  | [ms, ds, ys] =>
      match natOfDigits? ms, natOfDigits? ds, natOfDigits? ys with
      | some m, some d, some y2 =>
          if ms.length ≤ 2 && ds.length ≤ 2 && ys.length ≤ 2 then
            let y := if y2 ≤ 68 then 2000 + y2 else 1900 + y2
            if 1 ≤ m && m ≤ 12 && 1 ≤ d && d ≤ daysInMonth y m then
              some (encodeDate y m d)
            else none
          else none
      | _, _, _ => none
  | _ => none

/-- One row of the polling table.  The raw table has the string-typed
columns Date, Pollster, Sample and the six candidate share columns; the
cleaning engine adds the two derived columns (excludes overseas,
included in alternate question).  In raw input the derived columns are
missing (the column does not exist yet and is only ever written before
being read). -/
structure Row where
  dateV : Value
  pollster : Value
  sample : Value
  bulstrode : Value
  lydgate : Value
  chettam : Value
  vincy : Value
  casaubon : Value
  others : Value
  excludes : Value
  altQ : Value
deriving DecidableEq, Repr

/-- Default row used only to keep positional lookups total; its fields
are all missing. -/
def defaultRow : Row :=
  ⟨.missing, .missing, .missing, .missing, .missing, .missing, .missing,
   .missing, .missing, .missing, .missing⟩

/-- True exactly on string cells. -/
def isStrCell : Value → Bool
  | .str _ => true
  | _ => false

/-- The str accessor is available on a column exactly when the column
holds at least one string (object dtype with string content).  On a
numeric (or boolean, datetime, all-missing) column pandas raises
AttributeError: can only use .str accessor with string values. -/
def strAccessorOk (col : List Value) : Bool :=
  col.any isStrCell

/-- Error message for a str accessor applied to a non-string column. -/
def strAccessorErr : String :=
  "AttributeError: Can only use .str accessor with string values"

/-- Cellwise Series.str.contains(pat) on an object column: strings test
substring containment, non-string elements give missing. -/
def strContainsCell (pat : String) : Value → Value
  | .str s => .boolean (strHasSubstr s pat)
  | _ => .missing

/-- Cellwise Series.str.replace(pat, repl) on an object column:
non-string elements give missing. -/
def strReplaceCell (pat repl : String) : Value → Value
  | .str s => .str (pyReplace s pat repl)
  | _ => .missing

/-- Cellwise Series.str.rstrip for the percent sign: strips all trailing
percent characters; non-string elements give missing. -/
def rstripPercentCell : Value → Value
  | .str s => .str ⟨rstripPercent s.data⟩
  | _ => .missing

/-- Cellwise pd.to_numeric with errors=coerce: numeric strings parse,
unparseable strings coerce to missing, booleans become 0/1, numbers and
missing pass through.  (The datetime case cannot be reached by the
pipeline and coerces to missing.) -/
def toNumericCoerce : Value → Value
  | .str s => match parseDecimal? s with
      | some q => .num q
      | none => .missing
  | .num q => .num q
  | .boolean b => .num (Q.ofNat (if b then 1 else 0))
  | .date _ => .missing
  | .missing => .missing

/-- Cellwise Series.astype(float): numeric strings parse, an unparseable
string raises ValueError, booleans become 0/1, a datetime raises
TypeError, missing stays missing. -/
def astypeFloatCell : Value → Except String Value
  | .str s => match parseDecimal? s with
      | some q => .ok (.num q)
      | none => .error ("ValueError: could not convert string to float: " ++ s)
  | .num q => .ok (.num q)
  | .boolean b => .ok (.num (Q.ofNat (if b then 1 else 0)))
  | .date _ => .error "TypeError: float() argument must not be a datetime"
  | .missing => .ok .missing

/-- Divide a numeric cell by 100 (missing divides to missing, as NaN
does). -/
def div100 : Value → Value
  | .num q => .num (Q.div q (Q.ofNat 100))
  | v => v

/-- Cellwise fillna(False). -/
def fillnaFalse : Value → Value
  | .missing => .boolean false
  | v => v

/-- Cellwise pd.to_datetime with the explicit format: datetimes pass
through, missing becomes NaT, a string must match the format or the call
raises, and a non-string non-datetime raises. -/
def toDatetimeCell : Value → Except String Value
  | .date d => .ok (.date d)
  | .missing => .ok .missing
  | .str s => match parseDateMDY? s with
      | some d => .ok (.date d)
      | none => .error ("ValueError: time data " ++ s ++ " does not match format %m/%d/%y")
  | _ => .error "TypeError: to_datetime on non-string value"

/-- Python str() of a cell, used by Pollster.apply(str).  In the pipeline
the pollster column always holds strings; the remaining cases make the
function total (their exact Python spellings are irrelevant to every
claim, and numbers use the num/den spelling of Q). -/
def pyStr : Value → String
  | .str s => s
  | .num q => toString q.num ++ "/" ++ toString q.den
  | .boolean b => if b then "True" else "False"
  | .date d => toString d
  | .missing => "nan"

/-- List.mapM specialised to Except, written as plain recursion so that
proofs can unfold it. -/
def mapE (f : α → Except String β) : List α → Except String (List β)
  | [] => .ok []
  | a :: as =>
    match f a with
    | .error e => .error e
    | .ok b =>
      match mapE f as with
      | .error e => .error e
      | .ok bs => .ok (b :: bs)

/-- Names of the six candidate share columns. -/
inductive Cand where
  | bulstrode | lydgate | chettam | vincy | casaubon | others
deriving DecidableEq, Repr

/-- Read a candidate column from a row. -/
def getCand : Cand → Row → Value
  | .bulstrode, r => r.bulstrode
  | .lydgate, r => r.lydgate
  | .chettam, r => r.chettam
  | .vincy, r => r.vincy
  | .casaubon, r => r.casaubon
  | .others, r => r.others

/-- Write a candidate column of a row. -/
def setCand : Cand → Value → Row → Row
  | .bulstrode, v, r => { r with bulstrode := v }
  | .lydgate, v, r => { r with lydgate := v }
  | .chettam, v, r => { r with chettam := v }
  | .vincy, v, r => { r with vincy := v }
  | .casaubon, v, r => { r with casaubon := v }
  | .others, v, r => { r with others := v }

/-- The candidate columns in the order the cleaning loop visits them
(the source list at line 152 of data_engineering.py). -/
def candOrder : List Cand :=
  [.bulstrode, .lydgate, .chettam, .vincy, .casaubon, .others]

/-- Step of clean_data at line 144: flag rows whose Sample field contains
the overseas marker (an asterisk). -/
def flagOverseas (data : List Row) : Except String (List Row) :=
  if strAccessorOk (data.map (·.sample)) then
    .ok (data.map (fun r => { r with excludes := strContainsCell "*" r.sample }))
  else .error strAccessorErr

/-- Steps of clean_data at lines 145-146: strip the asterisk and the
thousands separator from Sample, then to_numeric with errors=coerce.
The chained str.replace calls share the guard of the first accessor (a
column that passes the first keeps string content for the second). -/
def parseSampleCol (data : List Row) : Except String (List Row) :=
  if strAccessorOk (data.map (·.sample)) then
    .ok (data.map (fun r =>
      { r with sample :=
          toNumericCoerce (strReplaceCell "," "" (strReplaceCell "*" "" r.sample)) }))
  else .error strAccessorErr

/-- Steps of clean_data at lines 148-149: flag rows whose Chettam field
contains the doubled asterisk, then fillna(False). -/
def flagAltQuestion (data : List Row) : Except String (List Row) :=
  if strAccessorOk (data.map (·.chettam)) then
    .ok (data.map (fun r => { r with altQ := fillnaFalse (strContainsCell "**" r.chettam) }))
  else .error strAccessorErr

/-- The mask computed at line 155: which cells carry the percent suffix
(contains("%", na=False), so missing counts as not having it).  Rows
where the mask is false are only counted and printed as badly formatted;
they are kept. -/
def percentMask (col : List Value) : List Bool :=
  col.map (fun v => match v with | .str s => strHasSubstr s "%" | _ => false)

/-- One iteration of the percent-conversion loop (lines 152-169): the
Chettam column strips the doubled asterisk and the percent sign and is
parsed with to_numeric errors=coerce; every other candidate column
strips the percent sign and is parsed with astype(float), which raises
on a non-numeric remainder.  Both divide by 100. -/
def parseCandCol (c : Cand) (data : List Row) : Except String (List Row) :=
  if strAccessorOk (data.map (getCand c)) then
    let _mask := percentMask (data.map (getCand c))
    if c = .chettam then
      .ok (data.map (fun r =>
        setCand c
          (div100 (toNumericCoerce (rstripPercentCell (strReplaceCell "**" "" (getCand c r))))) r))
    else
      mapE (fun r => do
        let v ← astypeFloatCell (rstripPercentCell (getCand c r))
        pure (setCand c (div100 v) r)) data
  else .error strAccessorErr

/-- The percent-conversion loop over the six candidate columns in source
order. -/
def parseCands : List Cand → List Row → Except String (List Row)
  | [], d => .ok d
  | c :: cs, d =>
    match parseCandCol c d with
    | .error e => .error e
    | .ok d2 => parseCands cs d2

/-- Step of clean_data at line 171: parse the Date column with the
explicit format (raises on a mismatch). -/
def parseDatesCol (data : List Row) : Except String (List Row) :=
  mapE (fun r => do
    let v ← toDatetimeCell r.dateV
    pure { r with dateV := v }) data

/-- Step of clean_data at line 172: Pollster.apply(str). -/
def pollsterToStr (data : List Row) : List Row :=
  data.map (fun r => { r with pollster := .str (pyStr r.pollster) })

/-- The duplication criteria of line 178: the (Date, Pollster, Sample)
key. -/
def rowKey (r : Row) : Value × Value × Value :=
  (r.dateV, r.pollster, r.sample)

/-- Indices marked by duplicated(subset=criteria, keep=first): an index
is marked when an earlier index holds the same key. -/
def dupKeepFirstIdx (data : List Row) : List Nat :=
  (List.range data.length).filter (fun i =>
    (List.range i).any (fun j =>
      decide (rowKey (data.getD j defaultRow) = rowKey (data.getD i defaultRow))))

/-- Indices marked by duplicated(subset=criteria, keep=last): an index is
marked when a later index holds the same key. -/
def dupKeepLastIdx (data : List Row) : List Nat :=
  (List.range data.length).filter (fun i =>
    (List.range data.length).any (fun j =>
      i < j && decide (rowKey (data.getD j defaultRow) = rowKey (data.getD i defaultRow))))

/-- The double-count block of clean_data (lines 174-200).  It runs only
when some row carries the alternate-question flag.  The rows marked
keep=first are called last in the source, the rows marked keep=last are
called first.  The source asserts that all last rows are flagged, and
then repeats the same assertion instead of checking the first rows.  It
reindexes last by first.index, copies the Chettam values of the first
rows into that frame, writes the frame back at the first indices, and
then drops those same first indices, so the written merged rows are
removed again and the rows at the last indices survive unchanged. -/
def resolveDuplicates (data : List Row) : Except String (List Row) :=
  if data.any (fun r => r.altQ == .boolean true) then
    let lastIdx := dupKeepFirstIdx data
    let firstIdx := dupKeepLastIdx data
    if lastIdx.all (fun i => (data.getD i defaultRow).altQ == .boolean true) then
      if lastIdx.all (fun i => (data.getD i defaultRow).altQ == .boolean true) then
        let written := (firstIdx.zip lastIdx).foldl
          (fun d (fl : Nat × Nat) =>
            d.set fl.1
              { data.getD fl.2 defaultRow with chettam := (data.getD fl.1 defaultRow).chettam })
          data
        .ok ((written.enum.filter (fun p => !(firstIdx.contains p.1))).map (·.2))
      else .error "AssertionError"
    else .error "AssertionError"
  else .ok data

/-- Step of clean_data at line 203: drop the alternate-question column
(the absent column is modelled as missing in every row). -/
def dropAltColumn (data : List Row) : List Row :=
  data.map (fun r => { r with altQ := .missing })

/-- Lexicographic order on character lists by code point, the pandas
string order. -/
def charListLE : List Char → List Char → Bool
  | [], _ => true
  | _ :: _, [] => false
  | a :: as, b :: bs => a.toNat < b.toNat || (a = b && charListLE as bs)

/-- Ordering used by sort_values: within one well-typed column this is
the value order with missing placed last (na_position=last).  The
heterogeneous cases cannot occur inside one cleaned column. -/
def valLE : Value → Value → Bool
  | .str a, .str b => charListLE a.data b.data
  | .num a, .num b => Q.le a b
  | .date a, .date b => decide (a ≤ b)
  | .boolean a, .boolean b => !a || b
  | .missing, .missing => true
  | .missing, _ => false
  | _, .missing => true
  | _, _ => false

/-- Lexicographic key order of sort_values(["Pollster", "Date"]). -/
def rowLE (r s : Row) : Bool :=
  if r.pollster = s.pollster then valLE r.dateV s.dateV else valLE r.pollster s.pollster

/-- Insert into a sorted list, before the first element it does not
strictly follow (stable). -/
def insertRow (r : Row) : List Row → List Row
  | [] => [r]
  | s :: rest => if rowLE r s then r :: s :: rest else s :: insertRow r rest

/-- Stable sort by (Pollster, Date), the step of clean_data at line
206. -/
def sortRows (data : List Row) : List Row :=
  data.foldr insertRow []

/-- DataEngineering.clean_data (lines 140-209) on an in-memory table: the
overseas flag, Sample parsing, the alternate-question flag, the percent
conversions, date parsing, Pollster stringification, duplicate
resolution, dropping the flag column, and the final sort. -/
def cleanData (data : List Row) : Except String (List Row) :=
  match flagOverseas data with
  | .error e => .error e
  | .ok d1 =>
    match parseSampleCol d1 with
    | .error e => .error e
    | .ok d2 =>
      match flagAltQuestion d2 with
      | .error e => .error e
      | .ok d3 =>
        match parseCands candOrder d3 with
        | .error e => .error e
        | .ok d4 =>
          match parseDatesCol d4 with
          | .error e => .error e
          | .ok d5 =>
            match resolveDuplicates (pollsterToStr d5) with
            | .error e => .error e
            | .ok d7 => .ok (sortRows (dropAltColumn d7))

/-- One cleaned row of a single-pollster frame handed to
regularise_time_series.  Time is measured in twelve-hour periods (the
interpolation sub-grid of the source) since an epoch midnight, so
calendar dates are the even times.  The shares list holds the candidate
columns in storage order. -/
structure SeriesRow where
  time : Nat
  pollster : String
  excludes : Bool
  sample : Option Q
  shares : List (Option Q)
deriving DecidableEq, Repr

/-- Default series row for total positional lookups. -/
def defaultSeriesRow : SeriesRow := ⟨0, "", false, none, []⟩

/-- Largest index at most i holding a present value, with that value. -/
def prevKnown (xs : List (Option Q)) : Nat → Option (Nat × Q)
  | 0 =>
    match xs.getD 0 none with
    | some v => some (0, v)
    | none => none
  | i + 1 =>
    match xs.getD (i + 1) none with
    | some v => some (i + 1, v)
    | none => prevKnown xs i

/-- Scan upward for the first present value, indices starting at i. -/
def nextKnownFrom : Nat → List (Option Q) → Option (Nat × Q)
  | _, [] => none
  | i, some v :: _ => some (i, v)
  | i, none :: rest => nextKnownFrom (i + 1) rest

/-- Smallest index at least i holding a present value, with that
value. -/
def nextKnown (xs : List (Option Q)) (i : Nat) : Option (Nat × Q) :=
  nextKnownFrom i (xs.drop i)

/-- pandas Series.interpolate(method=linear, limit=n, limit_direction=
forward) at one position of a uniformly spaced series.  Present values
stay.  A missing value is filled only when some earlier position holds a
value and the distance to the closest such position is at most the
limit; the fill is the linear interpolant towards the next present value
when one exists and the last value itself otherwise (the pandas forward
extension past the final observation).  Missing values before the first
present value are never filled (no backward fill). -/
def interpAt (limit : Nat) (xs : List (Option Q)) (i : Nat) : Option Q :=
  match xs.getD i none with
  | some v => some v
  | none =>
    match prevKnown xs i with
    | none => none
    | some (j, a) =>
      if i - j ≤ limit then
        match nextKnown xs i with
        | some (k, b) =>
            some (Q.add a (Q.div (Q.mul (Q.sub b a) (Q.ofNat (i - j))) (Q.ofNat (k - j))))
        | none => some a
      else none

/-- Interpolate a whole uniformly spaced series. -/
def interpolateLinear (limit : Nat) (xs : List (Option Q)) : List (Option Q) :=
  (List.range xs.length).map (interpAt limit xs)

/-- One row of the regularised output, which is also exactly the set of
columns of the persisted split file: to_csv writes with index=False, so
the DatetimeIndex is not part of the artifact and rows are identified
downstream only by the Date column.  On grid rows introduced by
resampling the Date column is NaT (DataFrame.interpolate fills numeric
blocks only and passes datetime and object blocks through), and the
pollster and overseas-flag columns are missing there as well: the source
calls fillna(method=ffill, inplace=True) on the frame that
df.loc[:, [Pollster, Excludes overseas candidates]] returns, and a
column-list selection returns a copy, so the forward fill never reaches
the frame that is returned and saved. -/
structure GridRow where
  dateCol : Option Nat
  pollster : Option String
  excludes : Option Bool
  sample : Option Q
  shares : List (Option Q)
deriving DecidableEq, Repr

/-- True when two rows of the input share a timestamp (the is_unique
check of line 177). -/
def hasDuplicateTimes (rows : List SeriesRow) : Bool :=
  (List.range rows.length).any (fun i =>
    (List.range i).any (fun j =>
      (rows.getD j defaultSeriesRow).time == (rows.getD i defaultSeriesRow).time))

/-- The observation of the series at a grid time, if any. -/
def obsAt (rows : List SeriesRow) (t : Nat) : Option SeriesRow :=
  rows.find? (fun r => r.time == t)

/-- Number of share columns of the frame. -/
def nSharesOf (rows : List SeriesRow) : Nat :=
  (rows.map (·.shares.length)).foldr max 0

/-- DataScience.regularise_time_series (lines 145-193) with the default
resample_every of 24h.  Raises on duplicate timestamps.  Builds the
twelve-hour grid from the first to the last observation (resample with
origin at the midnight of the first day), linearly interpolates the
numeric columns with limit=14 * 4 and limit_direction=forward, leaves
the Date, Pollster and overseas-flag columns missing on introduced rows
(see GridRow), and then takes the daily midnight grid points
(resample(24h).asfreq, the even times). -/
def regularise (rows : List SeriesRow) : Except String (List GridRow) :=
  if hasDuplicateTimes rows then
    .error "ValueError: duplicate timestamps for this pollster"
  else
    match rows.map (·.time) with
    | [] => .ok []
    | t0 :: ts =>
      let tmin := ts.foldl min t0
      let tmax := ts.foldl max t0
      let gridLen := tmax - tmin + 1
      let timeOf := fun (idx : Nat) => tmin + idx
      let nCols := nSharesOf rows
      let sampleG := interpolateLinear (14 * 4)
        ((List.range gridLen).map (fun idx => (obsAt rows (timeOf idx)).bind (·.sample)))
      let shareG := (List.range nCols).map (fun k =>
        interpolateLinear (14 * 4)
          ((List.range gridLen).map (fun idx =>
            (obsAt rows (timeOf idx)).bind (fun r => r.shares.getD k none))))
      .ok ((List.range gridLen).filterMap (fun idx =>
        if timeOf idx % 2 = 0 then
          some (match obsAt rows (timeOf idx) with
            | some r =>
                { dateCol := some (timeOf idx), pollster := some r.pollster,
                  excludes := some r.excludes, sample := sampleG.getD idx none,
                  shares := shareG.map (fun col => col.getD idx none) }
            | none =>
                { dateCol := none, pollster := none, excludes := none,
                  sample := sampleG.getD idx none,
                  shares := shareG.map (fun col => col.getD idx none) })
        else none))

/-- Insert into a sorted duplicate-free list of naturals. -/
def insertNatNoDup (n : Nat) : List Nat → List Nat
  | [] => [n]
  | m :: rest =>
    if n = m then m :: rest
    else if n < m then n :: m :: rest
    else m :: insertNatNoDup n rest

/-- Sorted duplicate-free version of a list of naturals. -/
def dedupSortNat (l : List Nat) : List Nat :=
  l.foldr insertNatNoDup []

/-- The dates of the joined per-candidate frame: the outer join of the
split tables on the Date index produces the union of their Date column
values plus NaT entries for introduced rows, and the notnull filter at
line 294 then removes the NaT rows, leaving the sorted union of the
non-missing Date values. -/
def aggDates (tables : List (List GridRow)) : List Nat :=
  dedupSortNat (tables.foldr (fun tb acc => tb.filterMap (·.dateCol) ++ acc) [])

/-- Sample contribution of one split table at one date after fillna(0):
the Sample value of the row whose Date column equals the date, with
missing as zero, and zero when the table has no such row. -/
def sampleAt (tb : List GridRow) (t : Nat) : Q :=
  match tb.find? (fun r => r.dateCol == some t) with
  | some r => r.sample.getD Q.zero
  | none => Q.zero

/-- Share contribution of one split table for share column k at one date
after fillna(0). -/
def shareAt (tb : List GridRow) (k t : Nat) : Q :=
  match tb.find? (fun r => r.dateCol == some t) with
  | some r => (r.shares.getD k none).getD Q.zero
  | none => Q.zero

/-- The total_samples row sum of line 298. -/
def totalSamplesAt (tables : List (List GridRow)) (t : Nat) : Q :=
  (tables.map (fun tb => sampleAt tb t)).foldl Q.add Q.zero

/-- The weighted share sum of lines 301-304 (share times sample, summed
over pollsters). -/
def weightedSumAt (tables : List (List GridRow)) (k t : Nat) : Q :=
  (tables.map (fun tb => Q.mul (shareAt tb k t) (sampleAt tb t))).foldl Q.add Q.zero

/-- The weighted average at one date (the division at line 307).  When
the total sample is zero the numerator is zero as well and pandas float
division produces NaN, not an exception; the model returns missing. -/
def weightedAverageAt (tables : List (List GridRow)) (k t : Nat) : Option Q :=
  let tot := totalSamplesAt tables t
  if tot.num = 0 then none
  else some (Q.div (weightedSumAt tables k t) tot)

/-- The per-candidate averages column over the joined dates, paired with
the dates. -/
def averagesColumn (tables : List (List GridRow)) (k : Nat) : List (Nat × Option Q) :=
  (aggDates tables).map (fun t => (t, weightedAverageAt tables k t))

/-- Rolling Gaussian-weighted moving average over a window of 7 (line
310).  The Gaussian weights exp applied to squared offsets over the
squared standard deviation are transcendental floats, so the model takes
the seven window weights as a parameter; no claim depends on their
values.  Positions with fewer than seven prior values are missing
(min_periods defaults to the window size), and a window containing a
missing value yields missing. -/
def rollingGaussMean7 (w : Nat → Q) (xs : List (Option Q)) : List (Option Q) :=
  (List.range xs.length).map (fun i =>
    if i < 6 then none
    else
      let idxs := (List.range 7).map (fun j => i - 6 + j)
      if (idxs.map (fun j => xs.getD j none)).any Option.isNone then none
      else
        let num := (idxs.zip (List.range 7)).foldl
          (fun acc p => Q.add acc (Q.mul (w p.2) ((xs.getD p.1 none).getD Q.zero))) Q.zero
        let den := (List.range 7).foldl (fun acc j => Q.add acc (w j)) Q.zero
        if den.num = 0 then none else some (Q.div num den))

/-- Candidate names accepted by compute_polling_averages (line 230). -/
def candidatesAll : List String :=
  ["Bulstrode", "Lydgate", "Vincy", "Casaubon", "Chettam", "Others"]

/-- Storage order of the share columns in cleaned rows (the column order
of the cleaned table, which the shares list of SeriesRow and GridRow
follows). -/
def shareColumnOrder : List String :=
  ["Bulstrode", "Lydgate", "Chettam", "Vincy", "Casaubon", "Others"]

/-- Index of a candidate column in the shares list. -/
def shareIndex (c : String) : Nat :=
  shareColumnOrder.indexOf c

/-- The candidates argument of compute_polling_averages: the default
string all, or an explicit list. -/
inductive CandArg where
  | all
  | list (names : List String)

/-- Check an explicit candidate list name by name, failing on the first
unknown name (lines 235-240). -/
def checkNames : List String → Except String (List String)
  | [] => .ok []
  | t :: ts =>
    if candidatesAll.contains t then
      match checkNames ts with
      | .error e => .error e
      | .ok rest => .ok (t :: rest)
    else
      .error ("ValueError: The province " ++ t ++
        " is not found in the list of available provinces")

/-- Validation of the candidates argument (lines 232-249). -/
def validateCandidates : CandArg → Except String (List String)
  | .all => .ok candidatesAll
  | .list names => checkNames names

/-- Result of compute_polling_averages: the polling_averages and trends
tables.  The Date column of each dict is assigned inside the candidate
loop, so it exists only when the loop ran at least once; an empty
candidate list therefore yields tables with no Date column and no
candidate columns. -/
structure AveragesResult where
  avgDates : Option (List Nat)
  avgCols : List (String × List (Option Q))
  trendDates : Option (List Nat)
  trendCols : List (String × List (Option Q))
deriving DecidableEq, Repr

/-- DataScience.compute_polling_averages (lines 195-321) over the loaded
split tables (in manifest order).  Validates the candidate argument;
for each selected candidate joins all pollster tables (pollsters[0] is
read first, so an empty manifest raises IndexError inside the loop),
computes the weighted averages column and its rolling Gaussian trend.
The w argument supplies the Gaussian window weights (see
rollingGaussMean7). -/
def computePollingAverages (w : Nat → Q) (tables : List (String × List GridRow))
    (arg : CandArg) : Except String AveragesResult :=
  match validateCandidates arg with
  | .error e => .error e
  | .ok cs =>
    match mapE (fun c =>
        match tables with
        | [] => .error "IndexError: list index out of range"
        | _ => .ok (c, (averagesColumn (tables.map (·.2)) (shareIndex c)).map (·.2))) cs with
    | .error e => .error e
    | .ok cols =>
      .ok { avgDates := if cs.isEmpty then none else some (aggDates (tables.map (·.2)))
            avgCols := cols
            trendDates := if cs.isEmpty then none else some (aggDates (tables.map (·.2)))
            trendCols := cols.map (fun p => (p.1, rollingGaussMean7 w p.2)) }

/-- Python str.split() with no argument: split on whitespace runs and
drop empty pieces. -/
def splitOnPred (p : Char → Bool) (l : List Char) : List (List Char) :=
  l.foldr (fun c acc =>
    match acc with
    | t :: ts => if p c then [] :: t :: ts else (c :: t) :: ts
    | [] => [[c]]) [[]]

/-- Python str.split() on a string. -/
def pySplitWs (s : String) : List String :=
  ((splitOnPred (·.isWhitespace) s.data).filter (fun t => !t.isEmpty)).map String.mk

/-- Join tokens with hyphens, as the hyphen join of the source does. -/
def joinHyphen : List String → String
  | [] => ""
  | [s] => s
  | s :: rest => s ++ "-" ++ joinHyphen rest

/-- DataScience.get_split_file_path (lines 64-75): hyphen-join the
whitespace tokens of the pollster name, wrap with the split basename and
the csv extension, and place under the interim directory (os.path.join
with a relative second component concatenates with a slash). -/
def getSplitFilePath (interimDir splitBasename pollsterName : String) : String :=
  interimDir ++ "/" ++ splitBasename ++ "_" ++
    joinHyphen (pySplitWs pollsterName) ++ ".csv"

/-! ### Concrete scenario data -/

/-- A raw polling row of pollster Acme Research on 1/1/24 with sample
1,200 and the given Chettam cell; the derived columns do not exist yet
(missing). -/
def mkRawRow (chet : String) : Row :=
  { dateV := .str "1/1/24", pollster := .str "Acme Research", sample := .str "1,200",
    bulstrode := .str "40%", lydgate := .str "5%", chettam := .str chet,
    vincy := .str "10%", casaubon := .str "10%", others := .str "5%",
    excludes := .missing, altQ := .missing }

/-- Failing input for C1: two raw rows identical in (date, pollster,
sample); the first is the plain row with Chettam 30 percent, the second
carries the alternate-question marker with Chettam 25 percent. -/
def c1raw : List Row := [mkRawRow "30%", mkRawRow "25%**"]

/-- The single row that cleaning c1raw outputs: the flagged row, with its
own alternate-question Chettam value 1/4 rather than the merged 3/10. -/
def c1survivor : Row :=
  { dateV := .date 1036321, pollster := .str "Acme Research",
    sample := .num ⟨1200, 1⟩, bulstrode := .num ⟨2, 5⟩, lydgate := .num ⟨1, 20⟩,
    chettam := .num ⟨1, 4⟩, vincy := .num ⟨1, 10⟩, casaubon := .num ⟨1, 10⟩,
    others := .num ⟨1, 20⟩, excludes := .boolean false, altQ := .missing }

/-- Failing input for C2: two raw rows identical in (date, pollster,
sample) that both carry the alternate-question marker. -/
def c2raw : List Row := [mkRawRow "30%**", mkRawRow "25%**"]

/-- The single row that cleaning c2raw outputs (the later row, kept
without any assertion failing). -/
def c2survivor : Row :=
  { dateV := .date 1036321, pollster := .str "Acme Research",
    sample := .num ⟨1200, 1⟩, bulstrode := .num ⟨2, 5⟩, lydgate := .num ⟨1, 20⟩,
    chettam := .num ⟨1, 4⟩, vincy := .num ⟨1, 10⟩, casaubon := .num ⟨1, 10⟩,
    others := .num ⟨1, 20⟩, excludes := .boolean false, altQ := .missing }

/-- Raw row with the percent suffix present in Bulstrode. -/
def c5rowSuffixed : Row := { mkRawRow "30%" with bulstrode := .str "30%" }

/-- Raw row with the percent suffix absent in Bulstrode. -/
def c5rowBare : Row := { mkRawRow "30%" with bulstrode := .str "30" }

/-- Raw row with non-numeric garbage in Bulstrode. -/
def c5rowGarbage : Row := { mkRawRow "30%" with bulstrode := .str "oops" }

/-- Raw row with non-numeric garbage in the Chettam column. -/
def c5rowChettamGarbage : Row := mkRawRow "garbage"

/-- Failing input for C5: a raw table whose Bulstrode cell is
non-numeric garbage. -/
def c5raw : List Row := [c5rowGarbage]

/-- A well-formed two-row raw table (distinct dates, no markers) for the
idempotence claim. -/
def c6raw : List Row :=
  [mkRawRow "30%", { mkRawRow "30%" with dateV := .str "1/2/24", sample := .str "800" }]

/-- The cleaned output of c6raw. -/
def c6cleaned : List Row :=
  [{ dateV := .date 1036321, pollster := .str "Acme Research",
     sample := .num ⟨1200, 1⟩, bulstrode := .num ⟨2, 5⟩, lydgate := .num ⟨1, 20⟩,
     chettam := .num ⟨3, 10⟩, vincy := .num ⟨1, 10⟩, casaubon := .num ⟨1, 10⟩,
     others := .num ⟨1, 20⟩, excludes := .boolean false, altQ := .missing },
   { dateV := .date 1036322, pollster := .str "Acme Research",
     sample := .num ⟨800, 1⟩, bulstrode := .num ⟨2, 5⟩, lydgate := .num ⟨1, 20⟩,
     chettam := .num ⟨3, 10⟩, vincy := .num ⟨1, 10⟩, casaubon := .num ⟨1, 10⟩,
     others := .num ⟨1, 20⟩, excludes := .boolean false, altQ := .missing }]

/-- Pollster A of the end-to-end scenario: candidate X is the first share
column, observations at times 0 (2024-01-01, share 40 percent, sample
100) and 4 (2024-01-03, share 50 percent, sample 200); time counts
twelve-hour periods from 2024-01-01 midnight. -/
def c3pollsA : List SeriesRow :=
  [⟨0, "A", false, some ⟨100, 1⟩, [some ⟨2, 5⟩]⟩,
   ⟨4, "A", false, some ⟨200, 1⟩, [some ⟨1, 2⟩]⟩]

/-- Pollster B of the end-to-end scenario: one observation at time 2
(2024-01-02, share 60 percent, sample 50). -/
def c3pollsB : List SeriesRow :=
  [⟨2, "B", false, some ⟨50, 1⟩, [some ⟨3, 5⟩]⟩]

/-- The regularised split table of pollster A: the introduced 2024-01-02
row holds the interpolated sample 150 and share 9/20 but a missing Date
column. -/
def c3gridA : List GridRow :=
  [{ dateCol := some 0, pollster := some "A", excludes := some false,
     sample := some ⟨100, 1⟩, shares := [some ⟨2, 5⟩] },
   { dateCol := none, pollster := none, excludes := none,
     sample := some ⟨150, 1⟩, shares := [some ⟨9, 20⟩] },
   { dateCol := some 4, pollster := some "A", excludes := some false,
     sample := some ⟨200, 1⟩, shares := [some ⟨1, 2⟩] }]

/-- The regularised split table of pollster B. -/
def c3gridB : List GridRow :=
  [{ dateCol := some 2, pollster := some "B", excludes := some false,
     sample := some ⟨50, 1⟩, shares := [some ⟨3, 5⟩] }]

/-- Input for C7: one pollster with observations two days apart, so that
daily resampling introduces one middle row. -/
def c7rows : List SeriesRow :=
  [⟨0, "Acme Research", false, some ⟨100, 1⟩, [some ⟨2, 5⟩]⟩,
   ⟨4, "Acme Research", false, some ⟨200, 1⟩, [some ⟨1, 2⟩]⟩]

/-- The introduced middle row of the regularised c7rows: numeric columns
interpolated, Date, Pollster and the overseas flag missing. -/
def c7gridMid : GridRow :=
  { dateCol := none, pollster := none, excludes := none,
    sample := some ⟨150, 1⟩, shares := [some ⟨9, 20⟩] }

/-- Counterexample series for C4: a single interior gap of 20 twelve-hour
periods between values 0 and 1. -/
def c4gap20 : List (Option Q) :=
  [some ⟨0, 1⟩] ++ List.replicate 20 none ++ [some ⟨1, 1⟩]

/-- A series with a single interior gap: a present value, g missing
positions, a present value. -/
def gapSeries (a : Q) (g : Nat) (b : Q) : List (Option Q) :=
  some a :: (List.replicate g none ++ [some b])

/-! ### Claim theorems -/

/-- C1 (code bug).  On a raw table with two rows identical in (date,
pollster, sample) where exactly one row (the later) carries the
alternate-question marker, cleaning does produce exactly one output row
for the key, and that row is the flagged one; but its Chettam share is
its own alternate-question value 1/4, not the non-flagged row value 3/10
the claim requires: the merged frame is written at the first-row index
and that very index is then dropped, so the copy never survives. -/
theorem c1_survivor_keeps_flagged_chettam :
    cleanData c1raw = Except.ok [c1survivor] ∧
    c1survivor.chettam = .num ⟨1, 4⟩ ∧
    c1survivor.chettam ≠ .num ⟨3, 10⟩ := by
  refine ⟨by decide, rfl, by decide⟩

/-- C2 (code bug).  On a raw table where two colliding rows both carry
the alternate-question marker, cleaning does not raise the fatal
assertion the claim requires: both assert statements of the source check
the keep=first duplicates (which are flagged), the first row is silently
dropped, and cleaning succeeds with one row. -/
theorem c2_both_flagged_not_fatal :
    cleanData c2raw = Except.ok [c2survivor] := by
  decide

/-- C3 (code bug).  On the two-pollster scenario, regularisation does
produce the interpolated 2024-01-02 row for pollster A (sample 150,
share 9/20), but the split artifact stores it with a missing Date column
(the index is not written and interpolate leaves datetime columns
missing), and the aggregation joins on the Date column and drops rows
with a missing date; hence the 2024-01-02 weighted average is B alone:
0.60, not the claimed 0.4875 = 39/80.  Time 2 encodes 2024-01-02. -/
theorem c3_jan02_average_is_b_alone :
    regularise c3pollsA = Except.ok c3gridA ∧
    regularise c3pollsB = Except.ok c3gridB ∧
    computePollingAverages (fun _ => Q.ofNat 1) [("A", c3gridA), ("B", c3gridB)]
        (.list ["Bulstrode"]) =
      Except.ok
        { avgDates := some [0, 2, 4],
          avgCols := [("Bulstrode", [some ⟨2, 5⟩, some ⟨3, 5⟩, some ⟨1, 2⟩])],
          trendDates := some [0, 2, 4],
          trendCols := [("Bulstrode", [none, none, none])] } ∧
    weightedAverageAt [c3gridA, c3gridB] 0 2 = some ⟨3, 5⟩ ∧
    (⟨3, 5⟩ : Q) ≠ ⟨39, 80⟩ := by
  refine ⟨by decide, by decide, by decide, by decide, by decide⟩

/-- C4 counterexample.  The claim bounds interpolation at 14 sub-grid
periods, but the source passes limit=14 * 4: in a gap of 20 periods the
position at distance 15 from the last observation is filled (with the
linear interpolant 15/21 = 5/7), not left missing. -/
theorem c4_position_15_is_filled :
    (interpolateLinear (14 * 4) c4gap20).getD 15 none = some ⟨5, 7⟩ := by
  decide

/-- C5 counterexample.  Percent parsing is not total: a non-numeric
Bulstrode cell reaches astype(float) and the cleaning run raises
instead of coercing to missing. -/
theorem c5_garbage_bulstrode_raises :
    cleanData c5raw =
      Except.error "ValueError: could not convert string to float: oops" := by
  decide

/-- C5 (corrected).  A suffixed "30%" parses to 3/10 in a non-Chettam
column; a bare "30" also parses to 3/10 while the percent mask flags it
as badly formatted (and the row is kept, not dropped); non-numeric
garbage coerces to missing in the Chettam column (to_numeric
errors=coerce) but raises ValueError in every other candidate column
(astype(float)). -/
theorem c5_percent_parsing_by_column :
    (parseCandCol .bulstrode [c5rowSuffixed]).map (List.map (·.bulstrode)) =
        .ok [.num ⟨3, 10⟩] ∧
    (parseCandCol .bulstrode [c5rowBare]).map (List.map (·.bulstrode)) =
        .ok [.num ⟨3, 10⟩] ∧
    percentMask [c5rowSuffixed.bulstrode] = [true] ∧
    percentMask [c5rowBare.bulstrode] = [false] ∧
    (parseCandCol .chettam [c5rowChettamGarbage]).map (List.map (·.chettam)) =
        .ok [.missing] ∧
    parseCandCol .bulstrode [c5rowGarbage] =
      .error "ValueError: could not convert string to float: oops" := by
  refine ⟨by decide, by decide, by decide, by decide, by decide, by decide⟩

/-- C6 counterexample.  Cleaning a well-formed raw table succeeds, but
cleaning the cleaned output is not a no-op: the first cleaning step
applies the str accessor to the now-numeric Sample column and raises
AttributeError. -/
theorem c6_reclean_is_not_noop :
    cleanData c6raw = Except.ok c6cleaned ∧
    cleanData c6cleaned ≠ Except.ok c6cleaned := by
  refine ⟨by decide, by decide⟩

/-- C7 (code bug).  Regularising a two-observation series introduces a
middle daily row whose numeric columns are interpolated but whose
Pollster and overseas-flag columns are missing, not forward-filled: the
source calls fillna(ffill, inplace) on the copy that a column-list
df.loc selection returns, so the fill is lost. -/
theorem c7_pollster_not_forward_filled :
    regularise c7rows = Except.ok
      [{ dateCol := some 0, pollster := some "Acme Research", excludes := some false,
         sample := some ⟨100, 1⟩, shares := [some ⟨2, 5⟩] },
       c7gridMid,
       { dateCol := some 4, pollster := some "Acme Research", excludes := some false,
         sample := some ⟨200, 1⟩, shares := [some ⟨1, 2⟩] }] ∧
    c7gridMid.pollster = none ∧ c7gridMid.excludes = none ∧
    c7gridMid.sample = some ⟨150, 1⟩ := by
  refine ⟨by decide, rfl, rfl, rfl⟩

/-- C9 counterexample.  The file-naming transform is not collision-free:
the distinct pollster names "A B" and "A  B" produce the same partition
path. -/
theorem c9_distinct_names_collide :
    getSplitFilePath "data/interim" "pollster_split" "A B" =
      getSplitFilePath "data/interim" "pollster_split" "A  B" ∧
    "A B" ≠ "A  B" := by
  refine ⟨by decide, by decide⟩

/-- C9 (corrected).  The transform is deterministic, and two pollster
names produce the same partition path exactly when the hyphen-joins of
their whitespace tokenisations agree; names whose joins differ never
collide, while distinct names with the same join (extra blanks, or
hyphens standing where blanks stood) do collide. -/
theorem c9_path_determined_by_token_join (dir base a b : String) :
    getSplitFilePath dir base a = getSplitFilePath dir base b ↔
      joinHyphen (pySplitWs a) = joinHyphen (pySplitWs b) := by
  constructor
  · intro h
    have h2 := congrArg String.data h
    simp only [getSplitFilePath, String.data_append] at h2
    exact String.ext (List.append_cancel_left (List.append_cancel_right h2))
  · intro h
    unfold getSplitFilePath
    rw [h]

/-- C10 (confirmed).  compute_polling_averages with an empty candidate
list passes validation, runs the loop zero times, and returns tables
with no Date column and no candidate columns; an unknown candidate name
by contrast raises the invalid-argument error. -/
theorem c10_empty_candidates_accepted (w : Nat → Q)
    (tables : List (String × List GridRow)) :
    computePollingAverages w tables (.list []) =
      Except.ok { avgDates := none, avgCols := [], trendDates := none, trendCols := [] } ∧
    computePollingAverages w tables (.list ["Garibaldi"]) =
      Except.error
        "ValueError: The province Garibaldi is not found in the list of available provinces" :=
  ⟨rfl, rfl⟩

/-! ### Re-cleaning always fails: supporting lemmas for C6 -/

/-- to_numeric never produces a string cell. -/
theorem toNumericCoerce_not_str (v : Value) :
    isStrCell (toNumericCoerce v) = false := by
  cases v with
  | str s =>
    simp only [toNumericCoerce]
    cases parseDecimal? s <;> rfl
  | _ => rfl

/-- Writing a candidate column leaves the Sample column unchanged. -/
theorem setCand_sample (c : Cand) (v : Value) (r : Row) :
    (setCand c v r).sample = r.sample := by
  cases c <;> rfl

/-- Every element of a successful mapE image is the image of an input
element. -/
theorem mapE_ok_mem {α β : Type} {f : α → Except String β} {l : List α}
    {l2 : List β} (h : mapE f l = .ok l2) {b : β} (hb : b ∈ l2) :
    ∃ a ∈ l, f a = .ok b := by
  induction l generalizing l2 with
  | nil =>
    cases h
    cases hb
  | cons a as ih =>
    simp only [mapE] at h
    cases hfa : f a with
    | error e => rw [hfa] at h; cases h
    | ok b0 =>
      rw [hfa] at h
      cases hrest : mapE f as with
      | error e => rw [hrest] at h; cases h
      | ok bs =>
        rw [hrest] at h
        cases h
        rcases List.mem_cons.mp hb with rfl | hmem
        · exact ⟨a, List.mem_cons_self a as, hfa⟩
        · obtain ⟨x, hx, hfx⟩ := ih hrest hmem
          exact ⟨x, List.mem_cons_of_mem a hx, hfx⟩

/-- The Sample column of a table has no string cell. -/
def sampleNotStrCol (d : List Row) : Prop :=
  ∀ r ∈ d, isStrCell r.sample = false

/-- After the Sample parsing step, the Sample column holds no string. -/
theorem parseSampleCol_not_str {d d2 : List Row}
    (h : parseSampleCol d = .ok d2) : sampleNotStrCol d2 := by
  unfold parseSampleCol at h
  split at h
  · cases h
    intro r hr
    simp only [List.mem_map] at hr
    obtain ⟨x, _, rfl⟩ := hr
    exact toNumericCoerce_not_str _
  · cases h

/-- The alternate-question flag step does not touch the Sample column. -/
theorem flagAltQuestion_sample {d d2 : List Row}
    (h : flagAltQuestion d = .ok d2) (hd : sampleNotStrCol d) :
    sampleNotStrCol d2 := by
  unfold flagAltQuestion at h
  split at h
  · cases h
    intro r hr
    simp only [List.mem_map] at hr
    obtain ⟨x, hx, rfl⟩ := hr
    exact hd x hx
  · cases h

/-- One percent-conversion iteration does not touch the Sample column. -/
theorem parseCandCol_sample {c : Cand} {d d2 : List Row}
    (h : parseCandCol c d = .ok d2) (hd : sampleNotStrCol d) :
    sampleNotStrCol d2 := by
  unfold parseCandCol at h
  split at h
  · split at h
    · cases h
      intro r hr
      simp only [List.mem_map] at hr
      obtain ⟨x, hx, rfl⟩ := hr
      rw [setCand_sample]
      exact hd x hx
    · intro r hr
      obtain ⟨x, hx, hfx⟩ := mapE_ok_mem h hr
      cases hv : astypeFloatCell (rstripPercentCell (getCand c x)) with
      | error e =>
        simp only [bind, Except.bind, hv] at hfx
        cases hfx
      | ok v =>
        simp only [bind, Except.bind, hv, pure, Except.pure] at hfx
        cases hfx
        rw [setCand_sample]
        exact hd x hx
  · cases h

/-- The percent-conversion loop does not touch the Sample column. -/
theorem parseCands_sample {cs : List Cand} {d d2 : List Row}
    (h : parseCands cs d = .ok d2) (hd : sampleNotStrCol d) :
    sampleNotStrCol d2 := by
  induction cs generalizing d with
  | nil => cases h; exact hd
  | cons c cs ih =>
    simp only [parseCands] at h
    split at h
    · cases h
    · rename_i d1 heq
      exact ih h (parseCandCol_sample heq hd)

/-- Date parsing does not touch the Sample column. -/
theorem parseDatesCol_sample {d d2 : List Row}
    (h : parseDatesCol d = .ok d2) (hd : sampleNotStrCol d) :
    sampleNotStrCol d2 := by
  intro r hr
  obtain ⟨x, hx, hfx⟩ := mapE_ok_mem h hr
  cases hv : toDatetimeCell x.dateV with
  | error e =>
    simp only [bind, Except.bind, hv] at hfx
    cases hfx
  | ok v =>
    simp only [bind, Except.bind, hv, pure, Except.pure] at hfx
    cases hfx
    exact hd x hx

/-- Pollster stringification does not touch the Sample column. -/
theorem pollsterToStr_sample {d : List Row} (hd : sampleNotStrCol d) :
    sampleNotStrCol (pollsterToStr d) := by
  intro r hr
  simp only [pollsterToStr, List.mem_map] at hr
  obtain ⟨x, hx, rfl⟩ := hr
  exact hd x hx

/-- Positional lookups inherit the column property (the default row has a
missing sample). -/
theorem getD_sample_not_str {d : List Row} (hd : sampleNotStrCol d) (i : Nat) :
    isStrCell ((d.getD i defaultRow).sample) = false := by
  rcases Nat.lt_or_ge i d.length with hlt | hge
  · rw [List.getD_eq_getElem?_getD, List.getElem?_eq_getElem hlt]
    exact hd _ (List.getElem_mem hlt)
  · rw [List.getD_eq_default _ _ hge]
    rfl

/-- The write-back fold of duplicate resolution preserves the Sample
column property: every row it writes takes its Sample from the original
table. -/
theorem foldl_set_sample {data : List Row} (hdata : sampleNotStrCol data) :
    ∀ (pairs : List (Nat × Nat)) (d0 : List Row), sampleNotStrCol d0 →
      sampleNotStrCol (pairs.foldl
        (fun d (fl : Nat × Nat) => d.set fl.1
          { data.getD fl.2 defaultRow with chettam := (data.getD fl.1 defaultRow).chettam })
        d0) := by
  intro pairs
  induction pairs with
  | nil => intro d0 h0; exact h0
  | cons p ps ih =>
    intro d0 h0
    simp only [List.foldl_cons]
    apply ih
    intro r hr
    rcases List.mem_or_eq_of_mem_set hr with hmem | rfl
    · exact h0 r hmem
    · exact getD_sample_not_str hdata p.2

/-- Duplicate resolution only rearranges rows and rewrites Chettam
cells, so the Sample column property survives it. -/
theorem resolveDuplicates_sample {d d2 : List Row}
    (h : resolveDuplicates d = .ok d2) (hd : sampleNotStrCol d) :
    sampleNotStrCol d2 := by
  simp only [resolveDuplicates] at h
  split at h
  · split at h
    · cases h
      have hwritten := foldl_set_sample hd
        ((dupKeepLastIdx d).zip (dupKeepFirstIdx d)) d hd
      intro r hr
      simp only [List.mem_map] at hr
      obtain ⟨⟨i, x⟩, hp, rfl⟩ := hr
      have hpw := (List.mem_filter.mp hp).1
      obtain ⟨hlt, hx⟩ := List.mem_enum hpw
      rw [hx]
      exact hwritten _ (List.getElem_mem hlt)
    · cases h
  · cases h
    exact hd

/-- Dropping the flag column does not touch the Sample column. -/
theorem dropAltColumn_sample {d : List Row} (hd : sampleNotStrCol d) :
    sampleNotStrCol (dropAltColumn d) := by
  intro r hr
  simp only [dropAltColumn, List.mem_map] at hr
  obtain ⟨x, hx, rfl⟩ := hr
  exact hd x hx

/-- Insertion yields only the inserted row or rows of the original
list. -/
theorem mem_insertRow {x r : Row} {l : List Row} (h : x ∈ insertRow r l) :
    x = r ∨ x ∈ l := by
  induction l with
  | nil =>
    simp only [insertRow, List.mem_singleton] at h
    exact Or.inl h
  | cons s rest ih =>
    simp only [insertRow] at h
    split at h
    · rcases List.mem_cons.mp h with rfl | hm
      · exact Or.inl rfl
      · exact Or.inr hm
    · rcases List.mem_cons.mp h with rfl | hm
      · exact Or.inr (List.mem_cons_self _ _)
      · rcases ih hm with rfl | hm2
        · exact Or.inl rfl
        · exact Or.inr (List.mem_cons_of_mem _ hm2)

/-- Sorting permutes rows, so the Sample column property survives it. -/
theorem sortRows_sample {d : List Row} (hd : sampleNotStrCol d) :
    sampleNotStrCol (sortRows d) := by
  induction d with
  | nil => intro r hr; cases hr
  | cons a l ih =>
    intro r hr
    simp only [sortRows, List.foldr_cons] at hr
    rcases mem_insertRow hr with rfl | hm
    · exact hd r (List.mem_cons_self _ _)
    · exact ih (fun x hx => hd x (List.mem_cons_of_mem _ hx)) r hm

/-- Any successful cleaning run leaves the Sample column without string
cells. -/
theorem cleanData_sample_not_str {d d2 : List Row}
    (h : cleanData d = .ok d2) : sampleNotStrCol d2 := by
  unfold cleanData at h
  cases h1 : flagOverseas d with
  | error e => simp only [h1] at h; cases h
  | ok da =>
  simp only [h1] at h
  cases h2 : parseSampleCol da with
  | error e => simp only [h2] at h; cases h
  | ok db =>
  simp only [h2] at h
  cases h3 : flagAltQuestion db with
  | error e => simp only [h3] at h; cases h
  | ok dc =>
  simp only [h3] at h
  cases h4 : parseCands candOrder dc with
  | error e => simp only [h4] at h; cases h
  | ok dd =>
  simp only [h4] at h
  cases h5 : parseDatesCol dd with
  | error e => simp only [h5] at h; cases h
  | ok de =>
  simp only [h5] at h
  cases h7 : resolveDuplicates (pollsterToStr de) with
  | error e => simp only [h7] at h; cases h
  | ok df =>
  simp only [h7] at h
  cases h
  exact sortRows_sample (dropAltColumn_sample
    (resolveDuplicates_sample h7
      (pollsterToStr_sample (parseDatesCol_sample h5
        (parseCands_sample h4 (flagAltQuestion_sample h3
          (parseSampleCol_not_str h2)))))))

/-- C6 (corrected).  Cleaning is not idempotent: re-applying clean_data
to the output of any successful cleaning run raises the str-accessor
AttributeError at its first step, because the cleaned Sample column is
numeric, not string. -/
theorem c6_reclean_always_errors (d d2 : List Row)
    (h : cleanData d = .ok d2) :
    cleanData d2 = Except.error strAccessorErr := by
  have hs := cleanData_sample_not_str h
  have hacc : strAccessorOk (d2.map (·.sample)) = false := by
    simp only [strAccessorOk, List.any_eq_false]
    intro v hv
    simp only [List.mem_map] at hv
    obtain ⟨r, hr, rfl⟩ := hv
    simp [hs r hr]
  unfold cleanData flagOverseas
  rw [hacc]
  simp

/-- Witness for C6: the concrete cleaned table c6cleaned, produced by
cleaning c6raw, errors when cleaned again. -/
theorem c6_reclean_always_errors_witness :
    cleanData c6cleaned = Except.error strAccessorErr :=
  c6_reclean_always_errors c6raw c6cleaned (by decide)

/-! ### The interpolation horizon: supporting lemmas for C4 -/

/-- Length of the single-gap series. -/
theorem gapSeries_length (a : Q) (g : Nat) (b : Q) :
    (gapSeries a g b).length = g + 2 := by
  simp [gapSeries]

/-- Inside the gap every position is missing. -/
theorem gapSeries_getD_mid (a : Q) (g : Nat) (b : Q) {i : Nat}
    (h1 : 1 ≤ i) (h2 : i ≤ g) : (gapSeries a g b).getD i none = none := by
  obtain ⟨k, rfl⟩ := Nat.exists_eq_add_of_le h1
  rw [Nat.add_comm 1 k]
  simp only [gapSeries, List.getD_cons_succ]
  rw [List.getD_append _ _ _ _ (by simp; omega)]
  rw [List.getD_eq_getElem?_getD, List.getElem?_replicate]
  rw [if_pos (by omega)]
  rfl

/-- The previous present value anywhere in the gap is the left
endpoint. -/
theorem prevKnown_gapSeries (a : Q) (g : Nat) (b : Q) :
    ∀ i, i ≤ g → prevKnown (gapSeries a g b) i = some (0, a) := by
  intro i
  induction i with
  | zero => intro _; rfl
  | succ k ih =>
    intro hle
    have hmid : (gapSeries a g b).getD (k + 1) none = none :=
      gapSeries_getD_mid a g b (Nat.succ_le_succ (Nat.zero_le k)) hle
    simp only [prevKnown, hmid]
    exact ih (Nat.le_of_succ_le hle)

/-- Scanning a run of missing values finds the value after the run. -/
theorem nextKnownFrom_replicate (b : Q) :
    ∀ (m j : Nat), nextKnownFrom j (List.replicate m none ++ [some b]) = some (j + m, b) := by
  intro m
  induction m with
  | zero => intro j; rfl
  | succ m ih =>
    intro j
    simp only [List.replicate_succ, List.cons_append, nextKnownFrom]
    show nextKnownFrom (j + 1) (List.replicate m none ++ [some b]) = _
    rw [ih (j + 1)]
    have harith : j + 1 + m = j + (m + 1) := by omega
    rw [harith]

/-- The next present value anywhere in the gap is the right endpoint. -/
theorem nextKnown_gapSeries (a : Q) (g : Nat) (b : Q) {i : Nat}
    (h1 : 1 ≤ i) (h2 : i ≤ g) : nextKnown (gapSeries a g b) i = some (g + 1, b) := by
  unfold nextKnown
  obtain ⟨k, rfl⟩ := Nat.exists_eq_add_of_le h1
  have hdrop : (gapSeries a g b).drop (1 + k) =
      List.replicate (g - k) none ++ [some b] := by
    simp only [gapSeries]
    rw [Nat.add_comm 1 k, List.drop_succ_cons]
    rw [List.drop_append_of_le_length (by simp; omega)]
    rw [List.drop_replicate]
  rw [hdrop, nextKnownFrom_replicate]
  have harith : 1 + k + (g - k) = g + 1 := by omega
  rw [harith]

/-- C4 (corrected).  The interpolation horizon of the regulariser is 56
(= 14 * 4) twelve-hour sub-grid periods, not 14: in a series with one
interior gap of g periods, the position at distance i from the last
observation is filled with the linear interpolant towards the next
observation exactly when i is at most 56, and left missing beyond
that. -/
theorem c4_gap_horizon_56 (a b : Q) (g i : Nat) (h1 : 1 ≤ i) (h2 : i ≤ g) :
    (interpolateLinear (14 * 4) (gapSeries a g b)).getD i none =
      if i ≤ 56 then
        some (Q.add a (Q.div (Q.mul (Q.sub b a) (Q.ofNat i)) (Q.ofNat (g + 1))))
      else none := by
  have hlen : i < (gapSeries a g b).length := by
    rw [gapSeries_length]; omega
  have hmap : (interpolateLinear (14 * 4) (gapSeries a g b)).getD i none =
      interpAt (14 * 4) (gapSeries a g b) i := by
    rw [interpolateLinear, List.getD_eq_getElem?_getD, List.getElem?_map,
      List.getElem?_range hlen]
    rfl
  rw [hmap]
  rw [interpAt, gapSeries_getD_mid a g b h1 h2,
    prevKnown_gapSeries a g b i h2, nextKnown_gapSeries a g b h1 h2]
  simp only [Nat.sub_zero]

/-- Witness for C4: in a gap of 60 periods the position at distance 57
is beyond the horizon and stays missing. -/
theorem c4_gap_horizon_56_witness :
    (interpolateLinear (14 * 4) (gapSeries ⟨0, 1⟩ 60 ⟨1, 1⟩)).getD 57 none =
      if 57 ≤ 56 then
        some (Q.add ⟨0, 1⟩ (Q.div (Q.mul (Q.sub ⟨1, 1⟩ ⟨0, 1⟩) (Q.ofNat 57)) (Q.ofNat 61)))
      else none :=
  c4_gap_horizon_56 ⟨0, 1⟩ ⟨1, 1⟩ 60 57 (by decide) (by decide)

/-! ### Zero-sample dates: supporting lemmas for C8 -/

/-- Normalising a zero numerator keeps it zero. -/
theorem normalize_num_zero (d : Nat) : (Q.normalize 0 d).num = 0 := by
  unfold Q.normalize
  split
  · rfl
  · simp

/-- Adding rationals with zero numerators yields a zero numerator. -/
theorem add_num_zero {a b : Q} (ha : a.num = 0) (hb : b.num = 0) :
    (Q.add a b).num = 0 := by
  unfold Q.add
  rw [ha, hb]
  have hz : (0 : Int) * (b.den : Int) + 0 * (a.den : Int) = 0 := by ring
  rw [hz]
  exact normalize_num_zero _

/-- Folding addition over zero-numerator rationals keeps the numerator
zero. -/
theorem foldl_add_num_zero {l : List Q} (h : ∀ q ∈ l, q.num = 0) :
    ∀ {acc : Q}, acc.num = 0 → (l.foldl Q.add acc).num = 0 := by
  induction l with
  | nil => intro acc hacc; exact hacc
  | cons q l ih =>
    intro acc hacc
    simp only [List.foldl_cons]
    exact ih (fun x hx => h x (List.mem_cons_of_mem _ hx))
      (add_num_zero hacc (h q (List.mem_cons_self _ _)))

/-- When every row of a table at a date has a zero-or-missing sample, the
fillna(0) sample contribution is zero. -/
theorem sampleAt_num_zero {tb : List GridRow} {t : Nat}
    (h : ∀ r ∈ tb, r.dateCol = some t → ∀ q, r.sample = some q → q.num = 0) :
    (sampleAt tb t).num = 0 := by
  unfold sampleAt
  cases hf : tb.find? (fun r => r.dateCol == some t) with
  | none => rfl
  | some r =>
    have hm := List.mem_of_find?_eq_some hf
    have hp : r.dateCol = some t := by simpa using List.find?_some hf
    show (r.sample.getD Q.zero).num = 0
    cases hs : r.sample with
    | none => rfl
    | some q => simpa using h r hm hp q hs

/-- The weighted average is missing at a date where every pollster
reports a zero-or-missing sample. -/
theorem weightedAverageAt_none {tables : List (List GridRow)} {t : Nat} (k : Nat)
    (hz : ∀ tb ∈ tables, ∀ r ∈ tb, r.dateCol = some t →
      ∀ q, r.sample = some q → q.num = 0) :
    weightedAverageAt tables k t = none := by
  have htot : (totalSamplesAt tables t).num = 0 := by
    unfold totalSamplesAt
    refine foldl_add_num_zero ?_ rfl
    intro q hq
    simp only [List.mem_map] at hq
    obtain ⟨tb, htb, rfl⟩ := hq
    exact sampleAt_num_zero (hz tb htb)
  unfold weightedAverageAt
  simp [htot]

/-- C8 (confirmed).  At every date of the aggregated output at which all
pollsters report a zero or missing sample size, the weighted average is
missing rather than an error (pandas produces NaN for the zero-over-zero
division), and the date still appears as a row of the averages
column. -/
theorem c8_zero_sample_average_missing (tables : List (List GridRow)) (k t : Nat)
    (ht : t ∈ aggDates tables)
    (hz : ∀ tb ∈ tables, ∀ r ∈ tb, r.dateCol = some t →
      ∀ q, r.sample = some q → q.num = 0) :
    (t, (none : Option Q)) ∈ averagesColumn tables k := by
  unfold averagesColumn
  refine List.mem_map.mpr ⟨t, ht, ?_⟩
  rw [weightedAverageAt_none k hz]

/-- A split table whose only date carries a zero sample. -/
def c8table : List GridRow :=
  [{ dateCol := some 6, pollster := some "A", excludes := some false,
     sample := some ⟨0, 1⟩, shares := [some ⟨1, 2⟩] }]

/-- Witness for C8: with one pollster reporting sample 0 at date 6, the
output row (6, missing) is present. -/
theorem c8_zero_sample_average_missing_witness :
    (6, (none : Option Q)) ∈ averagesColumn [c8table] 0 :=
  c8_zero_sample_average_missing [c8table] 0 6 (by decide) (by decide)

end Poll
